import Mathlib

/-!
# go_todo: the todo handlers of `main.go` over a model of the mgo collection

The four handlers of `main.go` (`fetchTodos`, `createTodo`, `deleteTodo`,
`updateTodo`) are embedded as pure functions from the request, the environment
of the request and the stored collection to the call of `render.JSON` the
handler ends with and the collection afterwards.  What the client is sent for
that call is a second step, `Outcome.response`.

What the handlers call in libraries is modelled as documented there:

* `gopkg.in/mgo.v2`: the session comes from `mgo.Dial`, which is in safe mode
  (`SetMode(mgo.Monotonic, true)` keeps it), so `Remove`, `RemoveId` and
  `Update` return `ErrNotFound` ("not found") when no document matches the
  selector.  `Update` with an update document that holds no `$` operator
  replaces the matched document by the update document and keeps its `_id`.
  `Insert` marshals the struct by its `bson` tags; a document inserted without
  `_id` is given a fresh `_id` by the store.
* `gopkg.in/mgo.v2/bson`: `ObjectId` is a string of raw bytes; `Hex`,
  `IsObjectIdHex`, `ObjectIdHex` are `encoding/hex` over it; a `time.Time` is
  stored with millisecond precision.
* `strings.TrimSpace` trims the code points of `unicode.IsSpace`.
* `encoding/json`: the result of `json.NewDecoder(r.Body).Decode(&t)` is part
  of the request.
* `github.com/thedevsaddam/renderer` and `net/http`: `render.JSON(w, status, v)`
  is `w.WriteHeader(status)` followed by `w.Write` of the JSON of `v`.  The
  response writer is the one of `net/http` as of Go 1.19: `WriteHeader` with an
  informational status (100 to 199, except 101) sends an interim header at once
  and leaves the header of the response unwritten, so that the `Write` that
  follows sends the response under the default status 200.  (Before Go 1.19
  such a status was written as the status of the response and the body was
  refused; that writer is not the one modelled.)

The package variables `render` and `db` are read as the renderer and the
database handle that `init` assigns; the value of `db` is the collection the
handlers are given and return.
-/

namespace GoTodo

/-! ## Data model (`main.go`, lines 30-44) -/

/-- One byte of a Go string. -/
abbrev Byte := Fin 256

/-- The type `bson.ObjectId`: a Go string holding raw bytes (twelve for an id made by
`bson.NewObjectId`, none for the zero value). -/
abbrev ObjectId := List Byte

/-- The type `time.Time`, as nanoseconds since January 1 of year 1 UTC; the zero value is `0`. -/
abbrev Time := Nat

/-- The struct `todoModel`: the record as the handlers marshal it to and from BSON. -/
structure todoModel where
  ID : ObjectId
  Title : String
  Completed : Bool
  CreatedAt : Time
deriving DecidableEq

/-- The struct `todo`: the record as the handlers read it from and write it to JSON. -/
structure todo where
  ID : String
  Title : String
  Completed : Bool
  CreatedAt : Time
deriving DecidableEq

/-! ## Status codes of `net/http` -/

def StatusProcessing : Nat := 102

def StatusOK : Nat := 200

def StatusCreated : Nat := 201

def StatusBadRequest : Nat := 400

/-! ## `encoding/hex`, `bson.ObjectId` and `strings.TrimSpace` -/

/-- The constant `hextable` of `encoding/hex`. -/
def hextable : String := "0123456789abcdef"

/-- The function `hex.EncodeToString`: two lower-case digits per byte, high nibble first. -/
def EncodeToString : List Byte → List Char
  | [] => []
  | b :: bs =>
    hextable.data.getD (b.val / 16) '0' :: hextable.data.getD (b.val % 16) '0' :: EncodeToString bs

/-- The function `fromHexChar` of `encoding/hex`: digits and both cases of `a`-`f`. -/
def fromHexChar (c : Char) : Option Nat :=
  if 48 ≤ c.toNat ∧ c.toNat ≤ 57 then some (c.toNat - 48)
  else if 97 ≤ c.toNat ∧ c.toNat ≤ 102 then some (c.toNat - 97 + 10)
  else if 65 ≤ c.toNat ∧ c.toNat ≤ 70 then some (c.toNat - 65 + 10)
  else none

/-- The function `hex.DecodeString`: `none` stands for its error (a character that is not a hex
digit, or an odd length).  A character outside ASCII is rejected like its first byte is. -/
def DecodeString : List Char → Option (List Byte)
  | [] => some []
  | [_] => none
  | a :: b :: rest =>
    match fromHexChar a, fromHexChar b, DecodeString rest with
    | some x, some y, some bs => some (Fin.ofNat (x * 16 + y) :: bs)
    | _, _, _ => none

/-- The method `ObjectId.Hex`. -/
def Hex (id : ObjectId) : String := ⟨EncodeToString id⟩

/-- The function `bson.IsObjectIdHex`: `len(s) == 24` (in bytes) and `hex.DecodeString(s)`
succeeds. -/
def IsObjectIdHex (s : String) : Bool :=
  if s.utf8ByteSize ≠ 24 then false
  else (DecodeString s.data).isSome

/-- The function `bson.ObjectIdHex`: the decoded bytes; `none` stands for its panic (the string
does not decode, or not to twelve bytes). -/
def ObjectIdHex (s : String) : Option ObjectId :=
  match DecodeString s.data with
  | some d => if d.length ≠ 12 then none else some d
  | none => none

/-- The function `unicode.IsSpace`. -/
def isSpace (c : Char) : Bool :=
  c.toNat ∈ [0x09, 0x0A, 0x0B, 0x0C, 0x0D, 0x20, 0x85, 0xA0, 0x1680, 0x2028, 0x2029, 0x202F, 0x205F, 0x3000]
    || (0x2000 ≤ c.toNat && c.toNat ≤ 0x200A)

/-- The function `strings.TrimSpace`: the string without its leading and trailing white space. -/
def TrimSpace (s : String) : String :=
  ⟨((s.data.dropWhile isSpace).reverse.dropWhile isSpace).reverse⟩

/-! ## The collection `todo` of the database, through mgo -/

/-- A stored BSON document: the `_id` every stored document has, and the keys the handlers write
(`id`, `title`, `completed`, `createdAt`), each of which a document may lack. -/
structure Doc where
  _id : ObjectId
  id : Option ObjectId
  title : Option String
  completed : Option Bool
  createdAt : Option Time
deriving DecidableEq

/-- The stored collection, in the order `Find(bson.M{})` yields it. -/
abbrev Collection := List Doc

/-- How the round trip of one storage call to the database goes. -/
inductive Conn where
  /-- The call reaches the store and its answer comes back. -/
  | up
  /-- The call fails with this error before the store sees it. -/
  | down (e : String)
  /-- The store applies the call, and the caller gets this error instead of the answer. -/
  | dropped (e : String)
deriving DecidableEq

/-- What a request finds around it: the state of the connection, the value of
`bson.NewObjectId()`, the value of `time.Now()`, and the `_id` the store gives a document that is
inserted without one. -/
structure Env where
  conn : Conn
  NewObjectId : ObjectId
  Now : Time
  serverId : ObjectId
deriving DecidableEq

/-- The error `mgo.ErrNotFound`. -/
def ErrNotFound : String := "not found"

/-- A time as BSON stores it: cut to the millisecond. -/
def truncMs (t : Time) : Time := t / 1000000 * 1000000

/-- Marshalling of a `todoModel` by its tags `bson:"id,omitempty"`, `bson:"title"`,
`bson:"completed"`, `bson:"createdAt"`.  No field is tagged `_id`, so the document is sent without
one and is stored under the `_id` the store picks. -/
def marshal (serverId : ObjectId) (m : todoModel) : Doc :=
  { _id := serverId
    id := if m.ID = [] then none else some m.ID
    title := some m.Title
    completed := some m.Completed
    createdAt := some (truncMs m.CreatedAt) }

/-- Unmarshalling of a stored document into a `todoModel`: a key the document lacks leaves the
zero value of the field.  The struct has no field for `_id`. -/
def unmarshal (d : Doc) : todoModel :=
  { ID := d.id.getD []
    Title := d.title.getD ""
    Completed := d.completed.getD false
    CreatedAt := d.createdAt.getD 0 }

/-- The call `Find(bson.M{}).All(&todos)`: every stored document, unmarshalled. -/
def All (conn : Conn) (c : Collection) : Except String (List todoModel) :=
  match conn with
  | .up => .ok (c.map unmarshal)
  | .down e => .error e
  | .dropped e => .error e

/-- The call `Insert(&tModel)`: the error, if any, and the collection afterwards. -/
def Insert (conn : Conn) (serverId : ObjectId) (c : Collection) (m : todoModel) :
    Option String × Collection :=
  match conn with
  | .up => (none, c ++ [marshal serverId m])
  | .down e => (some e, c)
  | .dropped e => (some e, c ++ [marshal serverId m])

/-- Removal of the first document whose `_id` is `sel`; `none` when no document matches. -/
def removeOne (sel : ObjectId) : Collection → Option Collection
  | [] => none
  | d :: ds =>
    if d._id = sel then some ds
    else match removeOne sel ds with
      | some ds2 => some (d :: ds2)
      | none => none

/-- The call `RemoveId(id)`, that is `Remove(bson.D{{"_id", id}})`: removes one matching document,
`ErrNotFound` when there is none. -/
def RemoveId (conn : Conn) (c : Collection) (sel : ObjectId) : Option String × Collection :=
  match conn with
  | .up =>
    match removeOne sel c with
    | some c2 => (none, c2)
    | none => (some ErrNotFound, c)
  | .down e => (some e, c)
  | .dropped e => (some e, (removeOne sel c).getD c)

/-- The document that replaces `d` under the update document
`bson.M{"title": title, "completed": completed}`: the update document itself, with the `_id` of
`d`. -/
def replacement (d : Doc) (title : String) (completed : Bool) : Doc :=
  { _id := d._id, id := none, title := some title, completed := some completed, createdAt := none }

/-- Replacement of the first document whose `_id` is `sel`; `none` when no document matches. -/
def replaceOne (sel : ObjectId) (title : String) (completed : Bool) : Collection → Option Collection
  | [] => none
  | d :: ds =>
    if d._id = sel then some (replacement d title completed :: ds)
    else match replaceOne sel title completed ds with
      | some ds2 => some (d :: ds2)
      | none => none

/-- The call `Update(bson.M{"_id": sel}, bson.M{"title": title, "completed": completed})`:
updates one matching document, `ErrNotFound` when there is none. -/
def Update (conn : Conn) (c : Collection) (sel : ObjectId) (title : String) (completed : Bool) :
    Option String × Collection :=
  match conn with
  | .up =>
    match replaceOne sel title completed c with
    | some c2 => (none, c2)
    | none => (some ErrNotFound, c)
  | .down e => (some e, c)
  | .dropped e => (some e, (replaceOne sel title completed c).getD c)

/-! ## Requests and replies -/

/-- What a handler reads of a request: the path parameter `chi.URLParam(r, "id")` and the result
of `json.NewDecoder(r.Body).Decode(&t)` (the decoding error, or the decoded `todo`). -/
structure Request where
  id : String
  body : Except String todo

/-- A value of a `renderer.M`. -/
inductive Value where
  /-- A Go string. -/
  | str (s : String)
  /-- A Go `error`. -/
  | err (e : String)
  /-- A `[]todo` that is not nil; it renders as a JSON array. -/
  | list (l : List todo)
  /-- A nil value; it renders as JSON `null`. -/
  | null
deriving DecidableEq

/-- The third argument of `render.JSON`. -/
inductive Payload where
  /-- A `renderer.M` with its keys. -/
  | M (fields : List (String × Value))
  /-- A bare Go `error`. -/
  | error (e : String)
deriving DecidableEq

/-- How a handler ends: with one call `render.JSON(w, status, v)`, or in a panic. -/
inductive Outcome where
  | reply (status : Nat) (v : Payload)
  | panicked
deriving DecidableEq

/-- What the client is sent for one request. -/
structure Response where
  /-- The status lines of the interim (informational) headers sent before the response. -/
  interim : List Nat
  /-- The status of the response. -/
  status : Nat
  /-- The body of the response; `none` when the status allows no body. -/
  body : Option Payload
deriving DecidableEq

/-- The function `bodyAllowedForStatus` of `net/http`: no body under 1xx, 204 and 304. -/
def bodyAllowedForStatus (status : Nat) : Bool :=
  if 100 ≤ status ∧ status ≤ 199 then false
  else if status = 204 then false
  else if status = 304 then false
  else true

/-- The call `render.JSON(w, status, v)` on a response writer nothing was written to:
`w.WriteHeader(status)`, then `w.Write` of the JSON of `v`.  `WriteHeader` panics on a status
below 100 or above 999 (`none`).  An informational status other than 101 goes out as an interim
header and the header of the response stays unwritten: `Write` then writes it with
`StatusOK`.  Any other status is the status of the response, and `Write` sends the body when the
status allows one. -/
def render.JSON (status : Nat) (v : Payload) : Option Response :=
  if status < 100 ∨ status > 999 then none
  else if 100 ≤ status ∧ status ≤ 199 ∧ status ≠ 101 then
    some { interim := [status], status := StatusOK, body := some v }
  else
    some { interim := [], status := status,
           body := if bodyAllowedForStatus status then some v else none }

/-- What the client is sent when the handler ends in this way; `none` when the handler panics
(the server closes the connection). -/
def Outcome.response : Outcome → Option Response
  | .reply status v => render.JSON status v
  | .panicked => none

/-- The value under `key` in a reply that is a `renderer.M`. -/
def Outcome.field (key : String) : Outcome → Option Value
  | .reply _ (.M fields) => (fields.find? (fun kv => kv.1 == key)).map Prod.snd
  | _ => none

/-- The list under `"data"` in a reply. -/
def Outcome.data (o : Outcome) : Option (List todo) :=
  match o.field "data" with
  | some (.list l) => some l
  | _ => none

/-! ## The handlers (`main.go`, lines 59-174) -/

/-- The handler `fetchTodos`. -/
def fetchTodos (env : Env) (_r : Request) (c : Collection) : Outcome × Collection :=
  match All env.conn c with
  | .error e =>
    (.reply StatusProcessing (.M [("Message", .str "Failed to fetch todo"), ("error", .err e)]), c)
  | .ok todos =>
    let todoList : List todo := todos.foldl
      (fun acc t => acc ++ [{ ID := Hex t.ID, Title := t.Title, Completed := t.Completed,
                              CreatedAt := t.CreatedAt }]) []
    (.reply StatusOK (.M [("data", .list todoList)]), c)

/-- The handler `createTodo`. -/
def createTodo (env : Env) (r : Request) (c : Collection) : Outcome × Collection :=
  match r.body with
  | .error e => (.reply StatusProcessing (.error e), c)
  | .ok t =>
    if t.Title = "" then
      (.reply StatusBadRequest (.M [("Message", .str "Title required")]), c)
    else
      let tModel : todoModel :=
        { ID := env.NewObjectId, Title := t.Title, Completed := false, CreatedAt := env.Now }
      match Insert env.conn env.serverId c tModel with
      | (some e, c2) =>
        (.reply StatusProcessing
          (.M [("Message", .str "Failed to save your todo"), ("error", .err e)]), c2)
      | (none, c2) =>
        (.reply StatusCreated
          (.M [("Message", .str "Todo created sucessfully"), ("todo_id", .str (Hex tModel.ID))]), c2)

/-- The handler `deleteTodo`. -/
def deleteTodo (env : Env) (r : Request) (c : Collection) : Outcome × Collection :=
  let id := TrimSpace r.id
  if !IsObjectIdHex id then
    (.reply StatusBadRequest (.M [("Message", .str "Invalid id provided")]), c)
  else
    match ObjectIdHex id with
    | none => (.panicked, c)
    | some oid =>
      match RemoveId env.conn c oid with
      | (some e, c2) =>
        (.reply StatusProcessing (.M [("Message", .str "Failed to delete"), ("error", .err e)]), c2)
      | (none, c2) =>
        (.reply StatusOK (.M [("Message", .str "Todo deleted successfully")]), c2)

/-- The handler `updateTodo`. -/
def updateTodo (env : Env) (r : Request) (c : Collection) : Outcome × Collection :=
  let id := TrimSpace r.id
  if !IsObjectIdHex id then
    (.reply StatusBadRequest (.M [("Message", .str "Invalid id")]), c)
  else
    match r.body with
    | .error e => (.reply StatusProcessing (.error e), c)
    | .ok t =>
      if t.Title = "" then
        (.reply StatusBadRequest (.M [("Message", .str "the title field id required")]), c)
      else
        match ObjectIdHex id with
        | none => (.panicked, c)
        | some oid =>
          match Update env.conn c oid t.Title t.Completed with
          | (some e, c2) =>
            (.reply StatusProcessing
              (.M [("Message", .str "Failed to update todo"), ("error", .err e)]), c2)
          | (none, c2) =>
            (.reply StatusOK (.M [("message", .str "Todo updated successfully")]), c2)

/-! ## The invariant on titles, and sample values -/

/-- Every stored record, as the handlers read it, has a non-empty title. -/
def nonEmptyTitles (c : Collection) : Prop := ∀ d ∈ c, (unmarshal d).Title ≠ ""

instance (c : Collection) : Decidable (nonEmptyTitles c) := by
  unfold nonEmptyTitles
  infer_instance

/-- A value of `bson.NewObjectId()`; its hex is `0102030405060708090a0b0c`. -/
def idA : ObjectId := [1, 2, 3, 4, 5, 6, 7, 8, 9, 10, 11, 12]

/-- An `_id` picked by the store; its hex is `a1a2a3a4a5a6a7a8a9aaabac`. -/
def idS : ObjectId := [161, 162, 163, 164, 165, 166, 167, 168, 169, 170, 171, 172]

/-- A request environment with the store answering: `bson.NewObjectId()` is `idA`, the store
picks `idS`, and `time.Now()` is some instant. -/
def envUp : Env := { conn := .up, NewObjectId := idA, Now := 63800000000123456789, serverId := idS }

/-- The request `POST /todo/` with body `{"title": "Buy milk", "completed": true}`. -/
def postBuyMilk : Request := { id := "", body := .ok ⟨"", "Buy milk", true, 0⟩ }

/-- The collection after `postBuyMilk` was handled on an empty collection. -/
def afterPost : Collection := (createTodo envUp postBuyMilk []).2

/-- The request `GET /todo/`. -/
def getAll : Request := { id := "", body := .error "EOF" }

/-- The request `DELETE /todo/0102030405060708090a0b0c`. -/
def deleteA : Request := { id := "0102030405060708090a0b0c", body := .error "EOF" }

/-- The request `PUT /todo/0102030405060708090a0b0c` with body
`{"title": "Buy milk and bread", "completed": true}`. -/
def putA : Request :=
  { id := "0102030405060708090a0b0c", body := .ok ⟨"", "Buy milk and bread", true, 0⟩ }

/-- The request `PUT /todo/a1a2a3a4a5a6a7a8a9aaabac` with body
`{"title": "Buy milk and bread", "completed": true}`. -/
def putS : Request :=
  { id := "a1a2a3a4a5a6a7a8a9aaabac", body := .ok ⟨"", "Buy milk and bread", true, 0⟩ }

/-- The request `PUT /todo/a1a2a3a4a5a6a7a8a9aaabac` with body `{"title": "", "completed": true}`. -/
def putEmptyTitle : Request :=
  { id := "a1a2a3a4a5a6a7a8a9aaabac", body := .ok ⟨"", "", true, 0⟩ }

/-- A request environment in which the store applies the call and the answer is lost. -/
def envDropped : Env :=
  { conn := .dropped "read tcp: i/o timeout", NewObjectId := idA, Now := 63800000000123456789,
    serverId := idS }

/-- A request environment in which the store is not reached. -/
def envDown : Env :=
  { conn := .down "no reachable servers", NewObjectId := idA, Now := 63800000000123456789,
    serverId := idS }

/-! ## Lemmas on the model -/

/-- The loop of `fetchTodos` that appends one converted record at a time is a map. -/
theorem foldl_append_singleton {α β : Type} (f : α → β) (l : List α) (acc : List β) :
    l.foldl (fun acc t => acc ++ [f t]) acc = acc ++ l.map f := by
  induction l generalizing acc with
  | nil => simp
  | cons x xs ih => simp [ih]

/-- What `fetchTodos` replies over a store that answers. -/
theorem fetchTodos_up (env : Env) (r : Request) (c : Collection) (hup : env.conn = .up) :
    fetchTodos env r c =
      (.reply 200 (.M [("data", .list ((c.map unmarshal).map
        (fun m => { ID := Hex m.ID, Title := m.Title, Completed := m.Completed,
                    CreatedAt := m.CreatedAt })))]), c) := by
  simp [fetchTodos, All, hup, foldl_append_singleton, StatusOK]

/-- What is left after a removal was stored before it. -/
theorem removeOne_subset (sel : ObjectId) : ∀ (c c2 : Collection), removeOne sel c = some c2 →
    ∀ d ∈ c2, d ∈ c
  | [], c2, h => by simp [removeOne] at h
  | x :: xs, c2, h => by
    simp only [removeOne] at h
    split_ifs at h with hx
    · simp only [Option.some.injEq] at h
      subst h
      intro d hd
      simp [hd]
    · split at h
      · rename_i ds2 hds2
        simp only [Option.some.injEq] at h
        subst h
        intro d hd
        simp only [List.mem_cons] at hd ⊢
        rcases hd with rfl | hd
        · exact Or.inl rfl
        · exact Or.inr (removeOne_subset sel xs ds2 hds2 d hd)
      · simp at h

/-- What is stored after a replacement was stored before it or is the replacing document. -/
theorem replaceOne_mem (sel : ObjectId) (title : String) (completed : Bool) :
    ∀ (c c2 : Collection), replaceOne sel title completed c = some c2 →
    ∀ d ∈ c2, d ∈ c ∨ ∃ d0 ∈ c, d = replacement d0 title completed
  | [], c2, h => by simp [replaceOne] at h
  | x :: xs, c2, h => by
    simp only [replaceOne] at h
    split_ifs at h with hx
    · simp only [Option.some.injEq] at h
      subst h
      intro d hd
      simp only [List.mem_cons] at hd ⊢
      rcases hd with rfl | hd
      · exact Or.inr ⟨x, Or.inl rfl, rfl⟩
      · exact Or.inl (Or.inr hd)
    · split at h
      · rename_i ds2 hds2
        simp only [Option.some.injEq] at h
        subst h
        intro d hd
        simp only [List.mem_cons] at hd ⊢
        rcases hd with rfl | hd
        · exact Or.inl (Or.inl rfl)
        · rcases replaceOne_mem sel title completed xs ds2 hds2 d hd with h1 | ⟨d0, h0, h1⟩
          · exact Or.inl (Or.inr h1)
          · exact Or.inr ⟨d0, Or.inr h0, h1⟩
      · simp at h

/-- Appending what `createTodo` marshals keeps the titles non-empty when its title is. -/
theorem nonEmptyTitles_append_marshal (c : Collection) (sid : ObjectId) (m : todoModel)
    (h : nonEmptyTitles c) (hm : m.Title ≠ "") : nonEmptyTitles (c ++ [marshal sid m]) := by
  intro d hd
  simp only [List.mem_append, List.mem_singleton] at hd
  rcases hd with hd | rfl
  · exact h d hd
  · simpa [marshal, unmarshal] using hm

/-- The handler `createTodo` keeps the titles non-empty. -/
theorem createTodo_nonEmptyTitles (env : Env) (r : Request) (c : Collection)
    (h : nonEmptyTitles c) : nonEmptyTitles (createTodo env r c).2 := by
  unfold createTodo
  cases r.body with
  | error e => exact h
  | ok t =>
    by_cases ht : t.Title = ""
    · simpa [ht] using h
    · have hnew := nonEmptyTitles_append_marshal c env.serverId
        { ID := env.NewObjectId, Title := t.Title, Completed := false, CreatedAt := env.Now } h ht
      cases env.conn <;> simp only [ht, Insert, if_false] <;> first | exact h | exact hnew

/-- The call `RemoveId` keeps the titles non-empty. -/
theorem RemoveId_nonEmptyTitles (conn : Conn) (c : Collection) (sel : ObjectId)
    (h : nonEmptyTitles c) : nonEmptyTitles (RemoveId conn c sel).2 := by
  unfold RemoveId
  cases conn with
  | up =>
    cases hr : removeOne sel c with
    | none => exact h
    | some c2 => exact fun d hd => h d (removeOne_subset sel c c2 hr d hd)
  | down e => exact h
  | dropped e =>
    cases hr : removeOne sel c with
    | none => exact h
    | some c2 => exact fun d hd => h d (removeOne_subset sel c c2 hr d hd)

/-- The call `Update` with a non-empty title keeps the titles non-empty. -/
theorem Update_nonEmptyTitles (conn : Conn) (c : Collection) (sel : ObjectId) (title : String)
    (completed : Bool) (h : nonEmptyTitles c) (ht : title ≠ "") :
    nonEmptyTitles (Update conn c sel title completed).2 := by
  have key : ∀ c2, replaceOne sel title completed c = some c2 → nonEmptyTitles c2 := by
    intro c2 hr d hd
    rcases replaceOne_mem sel title completed c c2 hr d hd with h1 | ⟨d0, _, rfl⟩
    · exact h d h1
    · simpa [replacement, unmarshal] using ht
  unfold Update
  cases conn with
  | up =>
    cases hr : replaceOne sel title completed c with
    | none => exact h
    | some c2 => exact key c2 hr
  | down e => exact h
  | dropped e =>
    cases hr : replaceOne sel title completed c with
    | none => exact h
    | some c2 => exact key c2 hr

/-- The handler `deleteTodo` keeps the titles non-empty. -/
theorem deleteTodo_nonEmptyTitles (env : Env) (r : Request) (c : Collection)
    (h : nonEmptyTitles c) : nonEmptyTitles (deleteTodo env r c).2 := by
  unfold deleteTodo
  by_cases hid : IsObjectIdHex (TrimSpace r.id) = true
  · simp only [hid, Bool.not_true, Bool.false_eq_true, if_false]
    cases ObjectIdHex (TrimSpace r.id) with
    | none => exact h
    | some oid =>
      have hr := RemoveId_nonEmptyTitles env.conn c oid h
      rcases hrem : RemoveId env.conn c oid with ⟨_ | e, c2⟩ <;>
        simp only [hrem] at hr ⊢ <;> exact hr
  · simpa [hid] using h

/-- The handler `updateTodo` keeps the titles non-empty. -/
theorem updateTodo_nonEmptyTitles (env : Env) (r : Request) (c : Collection)
    (h : nonEmptyTitles c) : nonEmptyTitles (updateTodo env r c).2 := by
  unfold updateTodo
  by_cases hid : IsObjectIdHex (TrimSpace r.id) = true
  · simp only [hid, Bool.not_true, Bool.false_eq_true, if_false]
    cases r.body with
    | error e => exact h
    | ok t =>
      by_cases ht : t.Title = ""
      · simpa [ht] using h
      · simp only [ht, if_false]
        cases ObjectIdHex (TrimSpace r.id) with
        | none => exact h
        | some oid =>
          have hr := Update_nonEmptyTitles env.conn c oid t.Title t.Completed h ht
          rcases hup : Update env.conn c oid t.Title t.Completed with ⟨_ | e, c2⟩ <;>
            simp only [hup] at hr ⊢ <;> exact hr
  · simpa [hid] using h

/-- The handler `fetchTodos` leaves the collection as it is. -/
theorem fetchTodos_collection (env : Env) (r : Request) (c : Collection) :
    (fetchTodos env r c).2 = c := by
  unfold fetchTodos
  cases All env.conn c <;> rfl

/-- The two ways `fetchTodos` ends.  When find-all returns the records `ms`, it answers 200 with
under `"data"` a list (never null) of the length of `ms` whose i-th entry has the title,
completed and createdAt of the i-th record and as id the hex of its id, so an empty store gives
the empty list.  When find-all fails with `e`, the handler calls `render.JSON` with 102, the
message "Failed to fetch todo" and `e`, and no `"data"`; the 102 goes out as an interim header and
the response that carries this body has status 200, the status of a successful list. -/
theorem fetchTodos_reply (env : Env) (r : Request) (c : Collection) :
    (∀ ms : List todoModel, All env.conn c = .ok ms →
      ∃ l : List todo,
        (fetchTodos env r c).1 = .reply 200 (.M [("data", .list l)]) ∧
        (fetchTodos env r c).1.response
          = some { interim := [], status := 200, body := some (.M [("data", .list l)]) } ∧
        l.length = ms.length ∧
        (ms = [] → l = []) ∧
        ∀ (i : Nat) (m : todoModel), ms[i]? = some m →
          l[i]? = some { ID := Hex m.ID, Title := m.Title, Completed := m.Completed,
                         CreatedAt := m.CreatedAt }) ∧
    (∀ e : String, All env.conn c = .error e →
      (fetchTodos env r c).1
        = .reply 102 (.M [("Message", .str "Failed to fetch todo"), ("error", .err e)]) ∧
      (fetchTodos env r c).1.response
        = some { interim := [102], status := 200,
                 body := some (.M [("Message", .str "Failed to fetch todo"),
                                   ("error", .err e)]) } ∧
      (fetchTodos env r c).1.field "data" = none) := by
  constructor
  · intro ms hms
    refine ⟨ms.map (fun m => (⟨Hex m.ID, m.Title, m.Completed, m.CreatedAt⟩ : todo)),
      ?_, ?_, by simp, ?_, ?_⟩
    · simp [fetchTodos, hms, foldl_append_singleton, StatusOK]
    · simp [fetchTodos, hms, foldl_append_singleton, StatusOK, Outcome.response, render.JSON,
        bodyAllowedForStatus]
    · rintro rfl
      rfl
    · intro i m hi
      simp [hi]
  · intro e he
    simp [fetchTodos, he, StatusProcessing, StatusOK, Outcome.response, render.JSON,
      Outcome.field]

/-! ## The claims -/

/-- C1: a create request whose body decodes to an empty title is answered 400 "Title required",
whatever the other fields and whatever the state of the connection, and the stored collection is
the one before the request. -/
theorem createTodo_empty_title (env : Env) (r : Request) (c : Collection) (t : todo)
    (hbody : r.body = .ok t) (htitle : t.Title = "") :
    createTodo env r c = (.reply 400 (.M [("Message", .str "Title required")]), c) := by
  simp [createTodo, hbody, htitle, StatusBadRequest]

theorem createTodo_empty_title_witness :
    createTodo ⟨.dropped "EOF", [1, 2, 3, 4, 5, 6, 7, 8, 9, 10, 11, 12], 1700000000123456789, [9]⟩
        ⟨"", .ok ⟨"abc", "", true, 5⟩⟩ [⟨[7], some [8], some "Buy milk", some false, some 0⟩]
      = (.reply 400 (.M [("Message", .str "Title required")]),
          [⟨[7], some [8], some "Buy milk", some false, some 0⟩]) :=
  createTodo_empty_title _ _ _ ⟨"abc", "", true, 5⟩ rfl rfl

/-- C2: with the store answering, a create request with a non-empty title `T` (and any completed
flag) is answered 201 with `todo_id` the hex of the new object id, and the list that `fetchTodos`
returns afterwards is the list it returned before followed by exactly one entry, whose id is that
`todo_id`, whose title is `T` and whose completed is false. -/
theorem createTodo_then_fetchTodos (env env2 : Env) (r r2 : Request) (c : Collection) (t : todo)
    (hbody : r.body = .ok t) (htitle : t.Title ≠ "")
    (hup : env.conn = .up) (hup2 : env2.conn = .up) :
    ∃ before : List todo,
      (fetchTodos env2 r2 c).1 = .reply 200 (.M [("data", .list before)]) ∧
      (createTodo env r c).1 = .reply 201
        (.M [("Message", .str "Todo created sucessfully"), ("todo_id", .str (Hex env.NewObjectId))]) ∧
      (fetchTodos env2 r2 (createTodo env r c).2).1 = .reply 200 (.M [("data", .list
        (before ++ [{ ID := Hex env.NewObjectId, Title := t.Title, Completed := false,
                      CreatedAt := truncMs env.Now }]))]) := by
  refine ⟨_, by rw [fetchTodos_up env2 r2 c hup2], ?_, ?_⟩
  · simp [createTodo, hbody, htitle, Insert, hup, StatusCreated]
  · rw [fetchTodos_up env2 r2 _ hup2]
    by_cases hid : env.NewObjectId = [] <;>
      simp [createTodo, hbody, htitle, Insert, hup, marshal, unmarshal, hid]

theorem createTodo_then_fetchTodos_witness :
    ∃ before : List todo,
      (fetchTodos envUp getAll afterPost).1 = .reply 200 (.M [("data", .list before)]) ∧
      (createTodo envUp postBuyMilk afterPost).1 = .reply 201
        (.M [("Message", .str "Todo created sucessfully"),
          ("todo_id", .str "0102030405060708090a0b0c")]) ∧
      (fetchTodos envUp getAll (createTodo envUp postBuyMilk afterPost).2).1
        = .reply 200 (.M [("data", .list
            (before ++ [⟨"0102030405060708090a0b0c", "Buy milk", false, 63800000000123000000⟩]))]) :=
  createTodo_then_fetchTodos envUp envUp postBuyMilk getAll afterPost ⟨"", "Buy milk", true, 0⟩
    rfl (by decide) rfl rfl

/-- C3: an update or delete request whose trimmed path id is not an object-id hex string is
answered 400, whatever the body and the state of the connection, and the stored collection is the
one before the request. -/
theorem invalid_id_rejected (env env2 : Env) (r r2 : Request) (c : Collection)
    (hid : IsObjectIdHex (TrimSpace r.id) = false)
    (hid2 : IsObjectIdHex (TrimSpace r2.id) = false) :
    updateTodo env r c = (.reply 400 (.M [("Message", .str "Invalid id")]), c) ∧
    deleteTodo env2 r2 c = (.reply 400 (.M [("Message", .str "Invalid id provided")]), c) := by
  constructor
  · simp [updateTodo, hid, StatusBadRequest]
  · simp [deleteTodo, hid2, StatusBadRequest]

theorem invalid_id_rejected_witness :
    IsObjectIdHex (TrimSpace " not-an-id ") = false ∧
    IsObjectIdHex (TrimSpace "0102030405060708090a0b0g") = false ∧
    updateTodo ⟨.dropped "EOF", idA, 7, idS⟩ ⟨" not-an-id ", .ok ⟨"", "", true, 0⟩⟩ afterPost
      = (.reply 400 (.M [("Message", .str "Invalid id")]), afterPost) ∧
    deleteTodo envUp ⟨"0102030405060708090a0b0g", .error "unexpected EOF"⟩ afterPost
      = (.reply 400 (.M [("Message", .str "Invalid id provided")]), afterPost) :=
  ⟨by decide, by decide,
    invalid_id_rejected ⟨.dropped "EOF", idA, 7, idS⟩ envUp ⟨" not-an-id ", .ok ⟨"", "", true, 0⟩⟩
      ⟨"0102030405060708090a0b0g", .error "unexpected EOF"⟩ afterPost (by decide) (by decide)⟩

/-- C9: if every stored record has a non-empty title, then after one request handled by
`createTodo`, `updateTodo`, `deleteTodo` or `fetchTodos`, with any path id, any body and any
state of the connection, every stored record has a non-empty title; and an update request with a
well-formed id and an empty title is answered 400 and the collection is the one before it. -/
theorem titles_stay_non_empty (env : Env) (r : Request) (c : Collection)
    (h : nonEmptyTitles c) :
    nonEmptyTitles (createTodo env r c).2 ∧ nonEmptyTitles (updateTodo env r c).2 ∧
    nonEmptyTitles (deleteTodo env r c).2 ∧ nonEmptyTitles (fetchTodos env r c).2 ∧
    (∀ t : todo, IsObjectIdHex (TrimSpace r.id) = true → r.body = .ok t → t.Title = "" →
      updateTodo env r c
        = (.reply 400 (.M [("Message", .str "the title field id required")]), c)) := by
  refine ⟨createTodo_nonEmptyTitles env r c h, updateTodo_nonEmptyTitles env r c h,
    deleteTodo_nonEmptyTitles env r c h, ?_, ?_⟩
  · rw [fetchTodos_collection]
    exact h
  · intro t hid hbody htitle
    simp [updateTodo, hid, hbody, htitle, StatusBadRequest]

theorem titles_stay_non_empty_witness :
    nonEmptyTitles afterPost ∧
    (nonEmptyTitles (createTodo envDropped putS afterPost).2 ∧
      nonEmptyTitles (updateTodo envDropped putS afterPost).2 ∧
      nonEmptyTitles (deleteTodo envDropped putS afterPost).2 ∧
      nonEmptyTitles (fetchTodos envDropped putS afterPost).2) ∧
    updateTodo envDropped putEmptyTitle afterPost
      = (.reply 400 (.M [("Message", .str "the title field id required")]), afterPost) :=
  ⟨by decide,
    ⟨(titles_stay_non_empty envDropped putS afterPost (by decide)).1,
      (titles_stay_non_empty envDropped putS afterPost (by decide)).2.1,
      (titles_stay_non_empty envDropped putS afterPost (by decide)).2.2.1,
      (titles_stay_non_empty envDropped putS afterPost (by decide)).2.2.2.1⟩,
    (titles_stay_non_empty envDropped putEmptyTitle afterPost (by decide)).2.2.2.2
      ⟨"", "", true, 0⟩ (by decide) rfl rfl⟩

/-- C10 on the code: `GET /todo/` while the store is not reached.  Find-all fails, and the
handler calls `render.JSON` with 102, the message "Failed to fetch todo" and the error, and no
`"data"`.  The 102 goes out as an interim header, and the response that carries this body has
status 200: the status the same request gets when the store answers and the list is returned. -/
theorem fetchTodos_failure_answers_200 :
    All envDown.conn afterPost = .error "no reachable servers" ∧
    fetchTodos envDown getAll afterPost
      = (.reply 102 (.M [("Message", .str "Failed to fetch todo"),
            ("error", .err "no reachable servers")]), afterPost) ∧
    (fetchTodos envDown getAll afterPost).1.response
      = some { interim := [102], status := 200,
               body := some (.M [("Message", .str "Failed to fetch todo"),
                                 ("error", .err "no reachable servers")]) } ∧
    (fetchTodos envDown getAll afterPost).1.data = none ∧
    (fetchTodos envUp getAll afterPost).1.response
      = some { interim := [], status := 200,
               body := some (.M [("data", .list
                 [⟨"0102030405060708090a0b0c", "Buy milk", false, 63800000000123000000⟩])]) } :=
  ⟨rfl, by decide, by decide, by decide, by decide⟩

/-- C5 on the code: `POST /todo/` with title "Buy milk" on the empty collection is answered 201
with `todo_id` `0102030405060708090a0b0c`; the stored document carries that id under the key `id`
and the `_id` the store picked.  `DELETE /todo/0102030405060708090a0b0c` then selects on `_id`,
finds nothing and ends in the failure branch (`render.JSON` with 102, "Failed to delete",
"not found"), and the list still holds the entry with that id. -/
theorem deleteTodo_created_id_stays :
    createTodo envUp postBuyMilk []
      = (.reply 201 (.M [("Message", .str "Todo created sucessfully"),
            ("todo_id", .str "0102030405060708090a0b0c")]),
          [⟨idS, some idA, some "Buy milk", some false, some 63800000000123000000⟩]) ∧
    deleteTodo envUp deleteA afterPost
      = (.reply 102 (.M [("Message", .str "Failed to delete"), ("error", .err "not found")]),
          afterPost) ∧
    (fetchTodos envUp getAll (deleteTodo envUp deleteA afterPost).2).1.data
      = some [⟨"0102030405060708090a0b0c", "Buy milk", false, 63800000000123000000⟩] := by
  decide

/-- C6 on the code: after the same create, `PUT /todo/0102030405060708090a0b0c` with title
"Buy milk and bread" and completed true selects on `_id`, finds nothing and ends in the failure
branch (`render.JSON` with 102, "Failed to update todo", "not found"), and the list still holds
the entry with the old title and completed false. -/
theorem updateTodo_created_id_stays :
    (createTodo envUp postBuyMilk []).1.field "todo_id"
      = some (.str "0102030405060708090a0b0c") ∧
    updateTodo envUp putA afterPost
      = (.reply 102 (.M [("Message", .str "Failed to update todo"), ("error", .err "not found")]),
          afterPost) ∧
    (fetchTodos envUp getAll (updateTodo envUp putA afterPost).2).1.data
      = some [⟨"0102030405060708090a0b0c", "Buy milk", false, 63800000000123000000⟩] := by
  decide

/-- C7 on the code: an update that matches a stored document (its path id is the `_id` of the
document) is answered 200 and replaces the document by the update document, which has only
`title` and `completed`: the keys `id` and `createdAt` are gone, and the list shows the record
with the empty id and the zero time where it showed `0102030405060708090a0b0c` and the creation
time. -/
theorem updateTodo_drops_id_and_createdAt :
    afterPost = [⟨idS, some idA, some "Buy milk", some false, some 63800000000123000000⟩] ∧
    updateTodo envUp putS afterPost
      = (.reply 200 (.M [("message", .str "Todo updated successfully")]),
          [⟨idS, none, some "Buy milk and bread", some true, none⟩]) ∧
    (fetchTodos envUp getAll afterPost).1.data
      = some [⟨"0102030405060708090a0b0c", "Buy milk", false, 63800000000123000000⟩] ∧
    (fetchTodos envUp getAll (updateTodo envUp putS afterPost).2).1.data
      = some [⟨"", "Buy milk and bread", true, 0⟩] := by
  decide

end GoTodo
